import Mathlib

/-!
Verification of the session-lifecycle provider and the modifier-selection
widgets of the kiosk-it front end.

The session provider (src/providers/session-provider.tsx) is embedded as
pure functions over an explicit `SessionState`, with the collaborator calls
(API client, store mutators) recorded as an effect trace.  The modifier
widgets (ModifierChips, ModifierCards, ModifierSegmented) are embedded as
the boolean enabling condition under which a button invokes `onToggle`.
-/

/-- The empty JavaScript string (falsy). -/
def emptyStr : String := ""

/-- Truthiness of an optional JavaScript string: truthy iff present and non-empty. -/
def truthy : Option String → Bool
  | none => false
  | some s => if s = emptyStr then false else true

/-- JavaScript `a || b` for an optional string `a` and a string `b`:
yields `b` exactly when `a` is absent or empty. -/
def jsOr (a : Option String) (b : String) : String :=
  match a with
  | none => b
  | some s => if s = emptyStr then b else s

/-- The slug choice of session-provider.tsx line 129:
`tenantSlug || storedTenantSlug || tenant.slug`. -/
def slugToUse (prop stored : Option String) (fetched : String) : String :=
  jsOr prop (jsOr stored fetched)

/-- The device record held in the session store; only its `tenantId` field is
read by the provider (line 116). -/
structure DeviceInfo where
  tenantId : String
  deriving DecidableEq, Repr

/-- The tenant record returned by `getCurrentTenant`; only its `slug` field is
read by the provider (line 129). -/
structure Tenant where
  slug : String
  deriving DecidableEq, Repr

/-- The session store state read by the provider (timestamps in milliseconds). -/
structure SessionState where
  tenantSlug : Option String
  tenant : Option Tenant
  deviceInfo : Option DeviceInfo
  isDeviceAuthenticated : Bool
  accessToken : Option String
  refreshToken : Option String
  accessTokenExpiresAt : Option Nat
  isInitialized : Bool
  deriving DecidableEq, Repr

/-- Outcome of the `getCurrentTenant()` call awaited at line 128: a tenant
record, or a rejection carrying a `status` field when the thrown error is an
object with one (line 137). -/
inductive FetchOutcome where
  | success (t : Tenant)
  | failure (status : Option Nat)
  deriving DecidableEq, Repr

/-- A collaborator call made by `initSession` (lines 95-158), in order. -/
inductive Effect where
  | setTenantId (id : String)
  | fetchTenant
  | setTenant (slug : String) (t : Tenant)
  | clearDeviceSession
  | setInitialized (b : Bool)
  deriving DecidableEq, Repr

/-- The `initSession` pass of session-provider.tsx lines 95-158, as the trace
of collaborator calls it makes.  `prop` is the `tenantSlug` prop and `stored`
the `storedTenantSlug` captured by the component; `s` is the store state read
at entry via `getState()`; `fetch` is the outcome of the tenant fetch (only
reached on the branch that performs it). -/
def initSession (prop stored : Option String) (s : SessionState)
    (fetch : FetchOutcome) : List Effect :=
  match s.deviceInfo, s.isDeviceAuthenticated, truthy s.accessToken with
  | some device, true, true =>
    Effect.setTenantId device.tenantId ::
      (match s.tenant with
       | some _ => [Effect.setInitialized true]
       | none =>
         Effect.fetchTenant ::
           (match fetch with
            | FetchOutcome.success t =>
              [Effect.setTenant (slugToUse prop stored t.slug) t,
               Effect.setInitialized true]
            | FetchOutcome.failure st =>
              match st with
              | some status =>
                if status = 401 || status = 403 then
                  [Effect.clearDeviceSession, Effect.setInitialized true]
                else
                  [Effect.setInitialized true]
              | none => [Effect.setInitialized true]))
  | _, _, _ => [Effect.setInitialized true]

/-- Test for the `setInitialized(true)` effect. -/
def isSetInitTrue : Effect → Bool
  | Effect.setInitialized true => true
  | _ => false

/-- Claim C1: for every session state read at entry and every outcome of the
tenant fetch (success, or failure with any status or none), `initSession`
ends by calling `setInitialized(true)`: it is the last collaborator call on
every path. -/
theorem c1_init_always_terminates_initialized (prop stored : Option String)
    (s : SessionState) (fetch : FetchOutcome) :
    (initSession prop stored s fetch).getLast? =
      some (Effect.setInitialized true) := by
  unfold initSession
  rcases hd : s.deviceInfo with _ | device <;>
    rcases hb : s.isDeviceAuthenticated <;>
    rcases ht : truthy s.accessToken <;>
    rcases htn : s.tenant with _ | tn <;>
    rcases fetch with t | st <;> simp
  all_goals (rcases st with _ | status <;> simp)
  all_goals split <;> simp

/-- Claim C2: when the device is authenticated (flag, device record and access
token all present), no tenant is persisted, and the tenant fetch fails,
`clearDeviceSession` is called iff the error carries a status of 401 or 403;
in either case the last call is `setInitialized(true)`, and on non-auth
failures the trace is exactly register-tenant, fetch, mark-initialized, so no
other store mutation occurs. -/
theorem c2_fetch_failure_clears_iff_auth_error (prop stored : Option String)
    (s : SessionState) (d : DeviceInfo) (st : Option Nat)
    (hAuth : s.isDeviceAuthenticated = true) (hDev : s.deviceInfo = some d)
    (hTok : truthy s.accessToken = true) (hTen : s.tenant = none) :
    (Effect.clearDeviceSession ∈ initSession prop stored s (FetchOutcome.failure st)
        ↔ st = some 401 ∨ st = some 403)
    ∧ (initSession prop stored s (FetchOutcome.failure st)).getLast? =
        some (Effect.setInitialized true)
    ∧ (¬(st = some 401 ∨ st = some 403) →
        initSession prop stored s (FetchOutcome.failure st) =
          [Effect.setTenantId d.tenantId, Effect.fetchTenant,
           Effect.setInitialized true]) := by
  unfold initSession
  rw [hAuth, hDev, hTok, hTen]
  rcases st with _ | status
  · simp
  · by_cases h4 : status = 401
    · subst h4; simp
    · by_cases h3 : status = 403
      · subst h3; simp
      · simp [h3, h4]

/-- A concrete authenticated state with no persisted tenant, used to witness
the failure-path theorems. -/
def sAuthNoTenant : SessionState :=
  { tenantSlug := none
    tenant := none
    deviceInfo := some ⟨"tenant-1"⟩
    isDeviceAuthenticated := true
    accessToken := some ("access-tok")
    refreshToken := some ("refresh-tok")
    accessTokenExpiresAt := some 1000000
    isInitialized := false }

/-- Witness for C2 at a concrete state and a 500-status failure. -/
theorem c2_fetch_failure_clears_iff_auth_error_witness :
    (Effect.clearDeviceSession ∈
        initSession none none sAuthNoTenant (FetchOutcome.failure (some 500))
      ↔ some 500 = some 401 ∨ some 500 = some 403)
    ∧ (initSession none none sAuthNoTenant (FetchOutcome.failure (some 500))).getLast? =
        some (Effect.setInitialized true)
    ∧ (¬(some 500 = some 401 ∨ some 500 = some 403) →
        initSession none none sAuthNoTenant (FetchOutcome.failure (some 500)) =
          [Effect.setTenantId ("tenant-1"), Effect.fetchTenant,
           Effect.setInitialized true]) :=
  c2_fetch_failure_clears_iff_auth_error none none sAuthNoTenant ⟨"tenant-1"⟩
    (some 500) (by decide) (by decide) (by decide) (by decide)

/-- Claim C4: when the tenant fetch succeeds during initialization, the trace
is register-tenant, fetch, `setTenant slug tenant`, mark-initialized, where
the stored slug follows the priority order caller-supplied prop (when present
and non-empty), else previously stored slug (when present and non-empty),
else the slug embedded in the fetched tenant record. -/
theorem c4_success_stores_priority_slug (prop stored : Option String)
    (s : SessionState) (d : DeviceInfo) (t : Tenant)
    (hAuth : s.isDeviceAuthenticated = true) (hDev : s.deviceInfo = some d)
    (hTok : truthy s.accessToken = true) (hTen : s.tenant = none) :
    initSession prop stored s (FetchOutcome.success t) =
      [Effect.setTenantId d.tenantId, Effect.fetchTenant,
       Effect.setTenant (slugToUse prop stored t.slug) t,
       Effect.setInitialized true]
    ∧ (∀ ps, prop = some ps → ps ≠ emptyStr → slugToUse prop stored t.slug = ps)
    ∧ (truthy prop = false → ∀ qs, stored = some qs → qs ≠ emptyStr →
        slugToUse prop stored t.slug = qs)
    ∧ (truthy prop = false → truthy stored = false →
        slugToUse prop stored t.slug = t.slug) := by
  refine ⟨?_, ?_, ?_, ?_⟩
  · unfold initSession
    rw [hAuth, hDev, hTok, hTen]
  · intro ps hps hne
    subst hps
    simp [slugToUse, jsOr, hne]
  · intro hp qs hqs hne
    subst hqs
    rcases prop with _ | p
    · simp [slugToUse, jsOr, hne]
    · simp [truthy] at hp
      simp [slugToUse, jsOr, hp, hne]
  · intro hp hq
    rcases prop with _ | p <;> rcases stored with _ | q
    · simp [slugToUse, jsOr]
    · simp [truthy] at hq
      simp [slugToUse, jsOr, hq]
    · simp [truthy] at hp
      simp [slugToUse, jsOr, hp]
    · simp [truthy] at hp hq
      simp [slugToUse, jsOr, hp, hq]

/-- Witness for C4 at a concrete state, a supplied prop slug and a fetched
tenant. -/
theorem c4_success_stores_priority_slug_witness :
    initSession (some ("prop-slug")) none sAuthNoTenant
        (FetchOutcome.success ⟨"fetched-slug"⟩) =
      [Effect.setTenantId ("tenant-1"), Effect.fetchTenant,
       Effect.setTenant (slugToUse (some ("prop-slug")) none ("fetched-slug"))
         ⟨"fetched-slug"⟩,
       Effect.setInitialized true] :=
  (c4_success_stores_priority_slug (some ("prop-slug")) none sAuthNoTenant
    ⟨"tenant-1"⟩ ⟨"fetched-slug"⟩ (by decide) (by decide) (by decide) (by decide)).1

/-- Claim C7: when the device is authenticated and a tenant record is already
persisted, initialization performs zero tenant fetches: the trace is exactly
register the device tenant id with the API client, then mark initialized; in
particular `fetchTenant` does not occur. -/
theorem c7_persisted_tenant_no_fetch (prop stored : Option String)
    (s : SessionState) (d : DeviceInfo) (tn : Tenant) (fetch : FetchOutcome)
    (hAuth : s.isDeviceAuthenticated = true) (hDev : s.deviceInfo = some d)
    (hTok : truthy s.accessToken = true) (hTen : s.tenant = some tn) :
    initSession prop stored s fetch =
      [Effect.setTenantId d.tenantId, Effect.setInitialized true]
    ∧ Effect.fetchTenant ∉ initSession prop stored s fetch := by
  have htrace : initSession prop stored s fetch =
      [Effect.setTenantId d.tenantId, Effect.setInitialized true] := by
    unfold initSession
    rw [hAuth, hDev, hTok, hTen]
  refine ⟨htrace, ?_⟩
  rw [htrace]
  simp

/-- A concrete authenticated state with a persisted tenant, used to witness
the fetch-skipping theorem. -/
def sAuthWithTenant : SessionState :=
  { sAuthNoTenant with tenant := some ⟨"cached-slug"⟩ }

/-- Witness for C7 at a concrete state. -/
theorem c7_persisted_tenant_no_fetch_witness :
    initSession none none sAuthWithTenant (FetchOutcome.failure none) =
      [Effect.setTenantId ("tenant-1"), Effect.setInitialized true]
    ∧ Effect.fetchTenant ∉
        initSession none none sAuthWithTenant (FetchOutcome.failure none) :=
  c7_persisted_tenant_no_fetch none none sAuthWithTenant ⟨"tenant-1"⟩
    ⟨"cached-slug"⟩ (FetchOutcome.failure none)
    (by decide) (by decide) (by decide) (by decide)

/-- Claim C9: in the slug-priority chain, a caller-supplied slug that is the
empty string is treated as absent: the choice is the same as with no prop at
all, and at a concrete input the stored slug wins over the supplied empty
prop. -/
theorem c9_empty_prop_slug_falls_through :
    (∀ (stored : Option String) (fetched : String),
        slugToUse (some emptyStr) stored fetched = slugToUse none stored fetched)
    ∧ slugToUse (some emptyStr) (some ("stored-slug")) ("fetched-slug") =
        ("stored-slug")
    ∧ ("stored-slug" : String) ≠ emptyStr := by
  refine ⟨?_, by decide, by decide⟩
  intro stored fetched
  simp [slugToUse, jsOr, emptyStr]

/-- Proactive refresh threshold of session-provider.tsx line 8: 5 minutes in
milliseconds. -/
def REFRESH_THRESHOLD_MS : Nat := 5 * 60 * 1000

/-- Check cadence of session-provider.tsx line 10: every 1 minute, in
milliseconds. -/
def REFRESH_CHECK_INTERVAL_MS : Nat := 60 * 1000

/-- Modelled from the spec: the session store predicate
`isTokenExpiringSoon(thresholdMs)` ("is the access token expiring within
threshold X?"); the store implementation is not among the sources.  True iff
a recorded expiry lies within `thresholdMs` of the current time; with no
recorded expiry the token is not considered expiring. -/
def SessionState.isTokenExpiringSoon (s : SessionState)
    (thresholdMs now : Nat) : Bool :=
  match s.accessTokenExpiresAt with
  | none => false
  | some t => decide (t ≤ now + thresholdMs)

/-- Modelled from the spec: the store mutator
`updateTokens(accessToken, refreshToken, expiresIn)` ("set tokens (access,
refresh, expiresInSeconds)"), which "atomically replaces access token,
refresh token, and expiry in SessionState"; the store implementation is not
among the sources. -/
def SessionState.updateTokens (s : SessionState) (access refresh : String)
    (expiresIn now : Nat) : SessionState :=
  { s with
      accessToken := some access
      refreshToken := some refresh
      accessTokenExpiresAt := some (now + expiresIn * 1000) }

/-- Outcome of the `refreshDeviceToken` call awaited at line 68. -/
inductive RefreshOutcome where
  | success (accessToken refreshToken : String) (expiresIn : Nat)
  | failure
  deriving DecidableEq, Repr

/-- A collaborator call made by one `proactiveRefresh` tick. -/
inductive RefreshEffect where
  | refreshCall (refreshToken : String)
  | updateTokens (access refresh : String) (expiresIn : Nat)
  deriving DecidableEq, Repr

/-- One `proactiveRefresh` tick of session-provider.tsx lines 52-75: the
trace of collaborator calls it makes and the resulting store state.  `s` is
the store state read fresh at tick entry, `now` the current time, `o` the
outcome of the remote refresh call (only reached when the call is made). -/
def proactiveRefresh (s : SessionState) (now : Nat) (o : RefreshOutcome) :
    List RefreshEffect × SessionState :=
  if !s.isDeviceAuthenticated || !truthy s.refreshToken then ([], s)
  else if !(s.isTokenExpiringSoon REFRESH_THRESHOLD_MS now) then ([], s)
  else
    match o with
    | RefreshOutcome.success a r e =>
      ([RefreshEffect.refreshCall (Option.getD s.refreshToken emptyStr),
        RefreshEffect.updateTokens a r e],
       s.updateTokens a r e now)
    | RefreshOutcome.failure =>
      ([RefreshEffect.refreshCall (Option.getD s.refreshToken emptyStr)], s)

/-- Claim C5: a proactive-refresh tick is a no-op (no collaborator call, state
returned unchanged) unless the device is authenticated, a refresh token is
present, and the access token is expiring within the 5-minute threshold; in
particular it is a no-op whenever `isDeviceAuthenticated` is false or the
refresh token is absent, regardless of expiry. -/
theorem c5_refresh_noop_unless_due (s : SessionState) (now : Nat)
    (o : RefreshOutcome) :
    (proactiveRefresh s now o ≠ ([], s) →
      s.isDeviceAuthenticated = true ∧ s.refreshToken.isSome = true ∧
        s.isTokenExpiringSoon REFRESH_THRESHOLD_MS now = true)
    ∧ (s.isDeviceAuthenticated = false ∨ s.refreshToken = none →
        proactiveRefresh s now o = ([], s)) := by
  constructor
  · intro hne
    by_cases hAuth : s.isDeviceAuthenticated = true
    · by_cases hTok : truthy s.refreshToken = true
      · by_cases hExp : s.isTokenExpiringSoon REFRESH_THRESHOLD_MS now = true
        · refine ⟨hAuth, ?_, hExp⟩
          rcases hr : s.refreshToken with _ | r
          · rw [hr] at hTok; simp [truthy] at hTok
          · simp
        · exfalso; apply hne
          simp only [Bool.not_eq_true] at hExp
          simp [proactiveRefresh, hAuth, hTok, hExp]
      · exfalso; apply hne
        simp only [Bool.not_eq_true] at hTok
        simp [proactiveRefresh, hTok]
    · exfalso; apply hne
      simp only [Bool.not_eq_true] at hAuth
      simp [proactiveRefresh, hAuth]
  · intro h
    rcases h with hAuth | hTok
    · simp [proactiveRefresh, hAuth]
    · simp [proactiveRefresh, hTok, truthy]

/-- A concrete unauthenticated state whose token is already past expiry, used
to witness the no-op theorem. -/
def sUnauthExpired : SessionState :=
  { tenantSlug := none
    tenant := none
    deviceInfo := none
    isDeviceAuthenticated := false
    accessToken := some ("stale-tok")
    refreshToken := some ("stale-refresh")
    accessTokenExpiresAt := some 0
    isInitialized := true }

/-- Witness for C5: with authentication off the tick is a no-op even though
the expiry is imminent. -/
theorem c5_refresh_noop_unless_due_witness :
    proactiveRefresh sUnauthExpired 0 RefreshOutcome.failure =
      ([], sUnauthExpired) :=
  (c5_refresh_noop_unless_due sUnauthExpired 0 RefreshOutcome.failure).2
    (Or.inl (by decide))

/-- Claim C6: when a tick is due (authenticated, refresh token truthy, expiry
within threshold) and the remote call succeeds, the trace is the refresh call
followed by a single `updateTokens` replacing all three token fields, and the
state is the `updateTokens` result; when the remote call fails, the trace is
the refresh call alone and the state is returned with no field changed. -/
theorem c6_refresh_due_success_failure (s : SessionState) (now : Nat)
    (hAuth : s.isDeviceAuthenticated = true)
    (hTok : truthy s.refreshToken = true)
    (hExp : s.isTokenExpiringSoon REFRESH_THRESHOLD_MS now = true) :
    (∀ a r e, proactiveRefresh s now (RefreshOutcome.success a r e) =
      ([RefreshEffect.refreshCall (Option.getD s.refreshToken emptyStr),
        RefreshEffect.updateTokens a r e],
       s.updateTokens a r e now))
    ∧ proactiveRefresh s now RefreshOutcome.failure =
        ([RefreshEffect.refreshCall (Option.getD s.refreshToken emptyStr)], s) := by
  constructor
  · intro a r e
    simp [proactiveRefresh, hAuth, hTok, hExp]
  · simp [proactiveRefresh, hAuth, hTok, hExp]

/-- A concrete authenticated state whose token expires within the lookahead
window, used to witness the due-tick theorem. -/
def sAuthExpiring : SessionState :=
  { sAuthNoTenant with accessTokenExpiresAt := some 100000 }

/-- Witness for C6 at a concrete due state: the success tick performs the
single atomic token update, and the failure tick leaves the state unchanged. -/
theorem c6_refresh_due_success_failure_witness :
    proactiveRefresh sAuthExpiring 0
        (RefreshOutcome.success ("new-acc") ("new-ref") 3600) =
      ([RefreshEffect.refreshCall (Option.getD sAuthExpiring.refreshToken emptyStr),
        RefreshEffect.updateTokens ("new-acc") ("new-ref") 3600],
       sAuthExpiring.updateTokens ("new-acc") ("new-ref") 3600 0)
    ∧ proactiveRefresh sAuthExpiring 0 RefreshOutcome.failure =
        ([RefreshEffect.refreshCall
            (Option.getD sAuthExpiring.refreshToken emptyStr)], sAuthExpiring) :=
  ⟨(c6_refresh_due_success_failure sAuthExpiring 0 (by decide) (by decide)
      (by decide)).1 ("new-acc") ("new-ref") 3600,
   (c6_refresh_due_success_failure sAuthExpiring 0 (by decide) (by decide)
      (by decide)).2⟩

/-- The per-mount component state relevant to the one-time initialization
effect: the `isHydrated` flag (line 18), the `hasInitialized` ref latch
(line 19), and a count of how many times the initialization pass has been
started. -/
structure MountState where
  isHydrated : Bool
  hasInitialized : Bool
  initRuns : Nat
  deriving DecidableEq, Repr

/-- The component state at mount: not hydrated, latch unset, zero passes. -/
def initialMount : MountState := ⟨false, false, 0⟩

/-- One run of the initialization effect body (lines 91-93): bail out unless
hydrated and the latch is unset; otherwise set the latch and start one
initialization pass. -/
def runInitEffect (m : MountState) : MountState :=
  if !m.isHydrated || m.hasInitialized then m
  else { m with hasInitialized := true, initRuns := m.initRuns + 1 }

/-- Events driving the mounted component: a store update re-rendering it
(which re-runs the effect when its dependencies changed), or the one-time
hydration signal (line 34) followed by the effect run it triggers. -/
inductive MountEv where
  | storeUpdate
  | hydrationSignal
  deriving DecidableEq, Repr

/-- Process one mount event: the effect body runs after the render the event
causes; the hydration signal first sets `isHydrated`. -/
def mountStep (m : MountState) : MountEv → MountState
  | MountEv.storeUpdate => runInitEffect m
  | MountEv.hydrationSignal => runInitEffect { m with isHydrated := true }

/-- Process a whole sequence of mount events. -/
def mountRun (m : MountState) (evs : List MountEv) : MountState :=
  evs.foldl mountStep m

/-- The latch/counter invariant: the number of initialization passes matches
the latch, so it is 1 once the latch is set and 0 before. -/
def mountInv (m : MountState) : Prop :=
  m.initRuns = if m.hasInitialized then 1 else 0

theorem runInitEffect_inv (m : MountState) (h : mountInv m) :
    mountInv (runInitEffect m) := by
  unfold mountInv at h ⊢
  unfold runInitEffect
  split
  · exact h
  · rename_i hcond
    simp only [Bool.or_eq_true, Bool.not_eq_true'] at hcond
    push_neg at hcond
    rcases hcond with ⟨-, h2⟩
    simp only [Bool.not_eq_true] at h2
    simp [h2] at h
    simp [h]

theorem mountStep_inv (m : MountState) (e : MountEv) (h : mountInv m) :
    mountInv (mountStep m e) := by
  cases e
  · exact runInitEffect_inv m h
  · exact runInitEffect_inv { m with isHydrated := true } h

theorem mountRun_inv (m : MountState) (evs : List MountEv) (h : mountInv m) :
    mountInv (mountRun m evs) := by
  induction evs generalizing m with
  | nil => exact h
  | cons e rest ih => exact ih (mountStep m e) (mountStep_inv m e h)

theorem runInitEffect_latch_mono (m : MountState)
    (h : m.hasInitialized = true) :
    (runInitEffect m).hasInitialized = true := by
  unfold runInitEffect
  split
  · exact h
  · rename_i hcond
    simp [h] at hcond

theorem mountStep_latch_mono (m : MountState) (e : MountEv)
    (h : m.hasInitialized = true) :
    (mountStep m e).hasInitialized = true := by
  cases e
  · exact runInitEffect_latch_mono m h
  · exact runInitEffect_latch_mono { m with isHydrated := true } h

theorem mountRun_latch_mono (m : MountState) (evs : List MountEv)
    (h : m.hasInitialized = true) :
    (mountRun m evs).hasInitialized = true := by
  induction evs generalizing m with
  | nil => exact h
  | cons e rest ih => exact ih (mountStep m e) (mountStep_latch_mono m e h)

theorem mountStep_hydration_latch (m : MountState) :
    (mountStep m MountEv.hydrationSignal).hasInitialized = true := by
  show (runInitEffect { m with isHydrated := true }).hasInitialized = true
  unfold runInitEffect
  split
  · rename_i hcond
    simp only [Bool.or_eq_true, Bool.not_eq_true'] at hcond
    rcases hcond with h1 | h2
    · simp at h1
    · exact h2
  · rfl

/-- Claim C3: for every sequence of store updates around the one hydration
signal of a mount, the initialization effect body starts at most one
initialization pass; when the hydration signal occurs the count is exactly
one; and each pass calls `setInitialized(true)` exactly once, so
`isInitialized` is set true exactly once per mount. -/
theorem c3_init_runs_exactly_once (evs : List MountEv)
    (prop stored : Option String) (s : SessionState) (fetch : FetchOutcome)
    (hmem : MountEv.hydrationSignal ∈ evs) :
    (mountRun initialMount evs).initRuns = 1
    ∧ (∀ evs2 : List MountEv, (mountRun initialMount evs2).initRuns ≤ 1)
    ∧ (initSession prop stored s fetch).countP isSetInitTrue = 1 := by
  have hle : ∀ evs2 : List MountEv, (mountRun initialMount evs2).initRuns ≤ 1 := by
    intro evs2
    have h := mountRun_inv initialMount evs2 (by rfl)
    unfold mountInv at h
    rw [h]
    split <;> simp
  refine ⟨?_, hle, ?_⟩
  · obtain ⟨l1, l2, hsplit⟩ := List.append_of_mem hmem
    subst hsplit
    have hlatch : (mountRun initialMount
        (l1 ++ MountEv.hydrationSignal :: l2)).hasInitialized = true := by
      unfold mountRun
      rw [List.foldl_append, List.foldl_cons]
      exact mountRun_latch_mono _ l2
        (mountStep_hydration_latch (mountRun initialMount l1))
    have h := mountRun_inv initialMount
      (l1 ++ MountEv.hydrationSignal :: l2) (by rfl)
    unfold mountInv at h
    rw [hlatch] at h
    simpa using h
  · unfold initSession
    rcases hd : s.deviceInfo with _ | device <;>
      rcases hb : s.isDeviceAuthenticated <;>
      rcases ht : truthy s.accessToken <;>
      rcases htn : s.tenant with _ | tn <;>
      rcases fetch with t | st <;> simp [isSetInitTrue]
    all_goals (rcases st with _ | status <;> simp [isSetInitTrue])
    all_goals split <;> simp [isSetInitTrue]

/-- Witness for C3 at a concrete event sequence with store updates on both
sides of the hydration signal, and a concrete initialization input. -/
theorem c3_init_runs_exactly_once_witness :
    (mountRun initialMount
        [MountEv.storeUpdate, MountEv.hydrationSignal,
         MountEv.storeUpdate, MountEv.storeUpdate]).initRuns = 1
    ∧ (∀ evs2 : List MountEv, (mountRun initialMount evs2).initRuns ≤ 1)
    ∧ (initSession none none sAuthNoTenant
        (FetchOutcome.failure (some 401))).countP isSetInitTrue = 1 :=
  c3_init_runs_exactly_once
    [MountEv.storeUpdate, MountEv.hydrationSignal,
     MountEv.storeUpdate, MountEv.storeUpdate]
    none none sAuthNoTenant (FetchOutcome.failure (some 401)) (by decide)

/-- The state of the proactive-refresh interval registered by the effect at
lines 78-88: whether the interval is still installed, and how many refresh
checks have fired. -/
structure IntervalState where
  active : Bool
  refreshCalls : Nat
  deriving DecidableEq, Repr

/-- A 60-second boundary crossing: the installed interval fires one
`proactiveRefresh` check; a cleared interval fires nothing. -/
def intervalTick (st : IntervalState) : IntervalState :=
  if st.active then { st with refreshCalls := st.refreshCalls + 1 } else st

/-- The effect cleanup returned at line 87: unmounting runs
`clearInterval(intervalId)`, uninstalling the interval. -/
def unmountCleanup (st : IntervalState) : IntervalState :=
  { st with active := false }

/-- `n` successive 60-second boundary crossings. -/
def runTicks (st : IntervalState) : Nat → IntervalState
  | 0 => st
  | n + 1 => runTicks (intervalTick st) n

theorem runTicks_inactive (st : IntervalState) (n : Nat)
    (h : st.active = false) : runTicks st n = st := by
  induction n with
  | zero => rfl
  | succ k ih =>
    show runTicks (intervalTick st) k = st
    rw [intervalTick, h]
    simpa using ih

/-- Claim C8: after the unmount cleanup clears the refresh interval, no
proactive-refresh call ever fires again: crossing any number of 60-second
boundaries leaves the refresh-call count exactly where it was at unmount. -/
theorem c8_no_refresh_after_unmount (st : IntervalState) (n : Nat) :
    (runTicks (unmountCleanup st) n).refreshCalls = st.refreshCalls := by
  rw [runTicks_inactive (unmountCleanup st) n (by rfl)]
  rfl

/-- A modifier as consumed by the modifier widgets: id, availability flag,
price and name. -/
structure Modifier where
  id : String
  name : String
  price : Int
  isAvailable : Bool
  deriving DecidableEq, Repr

/-- A modifier group as consumed by the modifier widgets. -/
structure ModifierGroup where
  name : String
  minSelections : Nat
  maxSelections : Nat
  modifiers : List Modifier
  deriving DecidableEq, Repr

/-- The `selectedCount` of each widget: how many of the group's modifiers
have their id in the selected-id set. -/
def selectedCount (g : ModifierGroup) (sel : List String) : Nat :=
  (g.modifiers.filter (fun m => sel.contains m.id)).length

/-- The `isDisabled` condition of ModifierChips (line 51):
`!modifier.isAvailable || (!isRadio && !isSelected && !canSelectMore)` with
`isRadio = maxSelections === 1` and
`canSelectMore = selectedCount < maxSelections`. -/
def chipsIsDisabled (g : ModifierGroup) (sel : List String)
    (m : Modifier) : Bool :=
  let isSelected := sel.contains m.id
  let canSelectMore := decide (selectedCount g sel < g.maxSelections)
  let isRadio := decide (g.maxSelections = 1)
  !m.isAvailable || (!isRadio && !isSelected && !canSelectMore)

/-- ModifierChips invokes `onToggle` iff the button is enabled and the click
guard `!isDisabled && onToggle(modifier)` passes (lines 57 and 66): both use
the same `isDisabled`. -/
def chipsCanToggle (g : ModifierGroup) (sel : List String)
    (m : Modifier) : Bool :=
  !(chipsIsDisabled g sel m)

/-- The `isDisabled` condition of ModifierCards (line 121), identical in form
to the chips widget. -/
def cardsIsDisabled (g : ModifierGroup) (sel : List String)
    (m : Modifier) : Bool :=
  let isSelected := sel.contains m.id
  let canSelectMore := decide (selectedCount g sel < g.maxSelections)
  let isRadio := decide (g.maxSelections = 1)
  !m.isAvailable || (!isRadio && !isSelected && !canSelectMore)

/-- ModifierCards invokes `onToggle` iff its `isDisabled` is false (lines 127
and 136). -/
def cardsCanToggle (g : ModifierGroup) (sel : List String)
    (m : Modifier) : Bool :=
  !(cardsIsDisabled g sel m)

/-- The `isDisabled` condition of ModifierSegmented (line 49): only
`!modifier.isAvailable`, with no selection-count term. -/
def segmentedIsDisabled (m : Modifier) : Bool :=
  !m.isAvailable

/-- ModifierSegmented invokes `onToggle` iff its `isDisabled` is false
(lines 55 and 65). -/
def segmentedCanToggle (m : Modifier) : Bool :=
  !(segmentedIsDisabled m)

/-- Claim C10: ModifierChips and ModifierCards never invoke `onToggle` for an
unavailable modifier, nor, when `maxSelections` exceeds 1, for an unselected
modifier once the selected count has reached `maxSelections`; while
ModifierSegmented invokes `onToggle` for exactly the available modifiers,
with no selection-count cap. -/
theorem c10_toggle_guards (g : ModifierGroup) (sel : List String)
    (m : Modifier) :
    (m.isAvailable = false →
      chipsCanToggle g sel m = false ∧ cardsCanToggle g sel m = false)
    ∧ (1 < g.maxSelections → sel.contains m.id = false →
        g.maxSelections ≤ selectedCount g sel →
        chipsCanToggle g sel m = false ∧ cardsCanToggle g sel m = false)
    ∧ segmentedCanToggle m = m.isAvailable := by
  refine ⟨?_, ?_, ?_⟩
  · intro h
    constructor
    · simp [chipsCanToggle, chipsIsDisabled, h]
    · simp [cardsCanToggle, cardsIsDisabled, h]
  · intro hmax hunsel hcount
    have hne : ¬ g.maxSelections = 1 := by omega
    have hlt : ¬ selectedCount g sel < g.maxSelections := by omega
    have hnm : m.id ∉ sel := by simpa using hunsel
    constructor
    · simp [chipsCanToggle, chipsIsDisabled, hne, hlt, hnm]
    · simp [cardsCanToggle, cardsIsDisabled, hne, hlt, hnm]
  · simp [segmentedCanToggle, segmentedIsDisabled]

/-- A two-modifier group with a two-selection cap, used to witness the toggle
guards. -/
def capGroup : ModifierGroup :=
  { name := ("Toppings")
    minSelections := 0
    maxSelections := 2
    modifiers :=
      [{ id := ("m1"), name := ("Cheese"), price := 1, isAvailable := true },
       { id := ("m2"), name := ("Bacon"), price := 2, isAvailable := true },
       { id := ("m3"), name := ("Onion"), price := 0, isAvailable := true }] }

/-- Witness for C10: with both selectable slots of `capGroup` taken, the
unselected third modifier cannot be toggled in the chips and cards widgets. -/
theorem c10_toggle_guards_witness :
    chipsCanToggle capGroup [("m1"), ("m2")]
        { id := ("m3"), name := ("Onion"), price := 0, isAvailable := true } = false
    ∧ cardsCanToggle capGroup [("m1"), ("m2")]
        { id := ("m3"), name := ("Onion"), price := 0, isAvailable := true } = false :=
  (c10_toggle_guards capGroup [("m1"), ("m2")]
      { id := ("m3"), name := ("Onion"), price := 0, isAvailable := true }).2.1
    (by decide) (by decide) (by decide)




